import Mathlib

/-!
Shallow embedding in Lean 4 of the multi-phase rate-of-spread engine of
`pyropy2/spread_model_vesta2.py` (Vesta II, Cruz et al. 2021/2022), together
with theorems settling the frozen claims about it.

Scalar semantics: the Python functions compute with IEEE floats over numpy;
here the arithmetic is idealised over `ℝ`, with `np.power` on a possibly
negative base modelled as a fallible operation (`Option ℝ`, `none` standing
for numpy's NaN on a negative base with a non-integer exponent), and the
1-D vectorised semantics of numpy broadcasting modelled explicitly on a
scalar-or-array type `NpT` with `Except` for numpy's broadcast errors and
Python's `ValueError` on truth-testing a multi-element array.
-/

open scoped Classical

namespace Vesta2

/-- The quartic polynomial segment of `calc_moisture_function`
(the third arm of the nested `np.where` in the source). -/
noncomputable def moisture_poly (m : ℝ) : ℝ :=
  0.9082 + 0.1206 * m - 0.03106 * m ^ 2 + 0.001853 * m ^ 3 - 0.00003467 * m ^ 4

/-- `calc_moisture_function` : nested `np.where` on fuel moisture (scalar case). -/
noncomputable def calc_moisture_function (fuel_moisture : ℝ) : ℝ :=
  if fuel_moisture ≤ 4.1 then 1
  else if fuel_moisture > 24 then 0
  else moisture_poly fuel_moisture

/-- `calc_fuel_availability` (scalar case).  `np.clip(x, 0, 10)` is
`min (max x 0) 10`; for scalars Python's builtin `max` is `max`. -/
noncomputable def calc_fuel_availability (DF DI wrf : ℝ) ( wet_forest : Bool) : ℝ :=
  let drought_factor :=
    if wet_forest then
      let C1 := (0.0046 * wrf ^ 2 - 0.0079 * wrf - 0.0175) * DI +
        (-0.9167 * wrf ^ 2 + 1.5833 * wrf + 13.5)
      let C2 : ℝ := 0
      min (max (DF * max (C1 + C2) 0 / 10) 0) 10
    else DF
  1.008 / (1 + 104.9 * Real.exp (-0.9306 * drought_factor))

/-- `calc_slope_effect` : nested `np.where` on the slope sign (scalar case).
`np.power` here has the literal base 2 > 0, modelled by `Real.rpow`. -/
noncomputable def calc_slope_effect (slope : ℝ) : ℝ :=
  if slope = 0 then 1
  else if slope > 0 then (2 : ℝ) ^ (slope / 10)
  else (2 : ℝ) ^ (-slope / 10) / (2 * (2 : ℝ) ^ (-slope / 10) - 1)

/-- `calc_height_understorey` : linear combination of hazard score and height. -/
noncomputable def calc_height_understorey (FHS_elevated height_elevated : ℝ) : ℝ :=
  -0.1 + 0.06 * FHS_elevated + 0.48 * height_elevated

/-- numpy float `np.power x y`: well defined (`Real.rpow`) for `0 ≤ x`, and for
a negative base only when the exponent is an integer; otherwise NaN (`none`). -/
noncomputable def npPow (x y : ℝ) : Option ℝ :=
  if 0 ≤ x then some (x ^ y)
  else if ∃ n : ℤ, (n : ℝ) = y then some (x ^ y)
  else none

/-- `calc_ros_phase1` (scalar case).  In the `u > 2` arm the bases `u - 1 > 1`
and `fuel_load_surface/10` feed `np.power`; kept fallible via `npPow`. -/
noncomputable def calc_ros_phase1 (wind_speed fuel_moisture fuel_availability
    fuel_load_surface wrf slope : ℝ) : Option ℝ := do
  let fuel_moisture_effect := calc_moisture_function fuel_moisture * fuel_availability
  let slope_effect := calc_slope_effect slope
  let u := wind_speed / wrf
  let ros ←
    if u > 2 then do
      let a ← npPow (u - 1) 0.92628
      let b ← npPow (fuel_load_surface / 10) 0.79928
      pure (0.03 + 0.05024 * a * b)
    else pure 0.03
  pure (ros * fuel_moisture_effect * slope_effect * 1000)

/-- `calculate_ros_phase2` (scalar case): the power law applies with no wind
threshold, and `height_understorey` is raised to the non-integer power 0.495. -/
noncomputable def calculate_ros_phase2 (wind_speed fuel_moisture fuel_availability
    fuel_load_surface wrf height_understorey slope : ℝ) : Option ℝ := do
  let fuel_moisture_effect := calc_moisture_function fuel_moisture * fuel_availability
  let slope_effect := calc_slope_effect slope
  let u := wind_speed / wrf
  let a ← npPow u 0.8257
  let b ← npPow (fuel_load_surface / 10) 0.4672
  let c ← npPow height_understorey 0.495
  let ros := 0.19591 * a * b * c
  pure (ros * fuel_moisture_effect * slope_effect * 1000)

/-- `calc_ros_phase3` (scalar case): no slope or wrf dependence. -/
noncomputable def calc_ros_phase3 (wind_speed fuel_moisture fuel_availability : ℝ) :
    Option ℝ := do
  let fuel_moisture_effect := calc_moisture_function fuel_moisture * fuel_availability
  let a ← npPow wind_speed 1.19128
  pure (0.05235 * a * fuel_moisture_effect * 1000)

/-- `calc_probability_phase2` (scalar case): hard zero below 1 t/ha surface
fuel load, logistic in `g_x` otherwise. -/
noncomputable def calc_probability_phase2 (wind_speed fuel_moisture fuel_availability
    fuel_load_surface wrf : ℝ) : ℝ :=
  let fuel_moisture_effect := calc_moisture_function fuel_moisture * fuel_availability
  let g_x := -23.9315 + 1.7033 * (wind_speed / wrf) + 12.0822 * fuel_moisture_effect +
    0.95236 * fuel_load_surface
  if fuel_load_surface < 1 then 0 else 1 / (1 + Real.exp (-g_x))

/-- `calc_probability_phase3` (scalar case): hard zero below 300 m/h phase-2
rate, logistic in `g_x` otherwise. -/
noncomputable def calc_probability_phase3 (wind_speed fuel_moisture fuel_availability
    ros_phase2 : ℝ) : ℝ :=
  let fuel_moisture_effect := calc_moisture_function fuel_moisture * fuel_availability
  let g_x := -32.3074 + 0.2951 * wind_speed + 26.8734 * fuel_moisture_effect
  if ros_phase2 < 300 then 0 else 1 / (1 + Real.exp (-g_x))

/-- `calc_rate_of_spread` (scalar case): `np.where(probability_phase2 < 0.5, ..)`
blender of the three candidate rates. -/
noncomputable def calc_rate_of_spread (ros_phase1 ros_phase2 ros_phase3
    probability_phase2 probability_phase3 : ℝ) : ℝ :=
  if probability_phase2 < 0.5 then
    ros_phase1 * (1 - probability_phase2) + ros_phase2 * probability_phase2
  else
    ros_phase1 * (1 - probability_phase2) + ros_phase2 * probability_phase2 *
      (1 - probability_phase3) + ros_phase3 * probability_phase3

/-- A 1-D numpy value: a scalar or an array. -/
inductive NpT (α : Type) where
  | scl (x : α)
  | arr (xs : List α)

/-- Elementwise binary operation with numpy 1-D broadcasting: scalars
broadcast, arrays of equal length zip elementwise, a length-1 array
broadcasts against any length, and any other combination of lengths is a
broadcast (dimension-mismatch) error. -/
def npZip {α β γ : Type} (f : α → β → γ) : NpT α → NpT β → Except String (NpT γ)
  | NpT.scl a, NpT.scl b => Except.ok (NpT.scl (f a b))
  | NpT.scl a, NpT.arr bs => Except.ok (NpT.arr (bs.map (fun b => f a b)))
  | NpT.arr as, NpT.scl b => Except.ok (NpT.arr (as.map (fun a => f a b)))
  | NpT.arr as, NpT.arr bs =>
    if as.length = bs.length then Except.ok (NpT.arr (List.zipWith f as bs))
    else if ha : as.length = 1 then
      Except.ok (NpT.arr (bs.map (fun b => f (as.get ⟨0, by omega⟩) b)))
    else if hb : bs.length = 1 then
      Except.ok (NpT.arr (as.map (fun a => f a (bs.get ⟨0, by omega⟩))))
    else Except.error "DimensionMismatch"

/-- Elementwise unary operation (scalar-argument numpy ufuncs never fail). -/
def npMap {α β : Type} (f : α → β) : NpT α → NpT β
  | NpT.scl x => NpT.scl (f x)
  | NpT.arr xs => NpT.arr (xs.map f)

/-- `np.clip(x, lo, hi)` elementwise. -/
noncomputable def npClip (x : NpT ℝ) (lo hi : ℝ) : NpT ℝ :=
  npMap (fun v => min (max v lo) hi) x

/-- Python's builtin `max(a, b)` with `a` a numpy value and `b` a scalar:
it truth-tests `b > a`, which numpy evaluates elementwise, so a multi-element
array raises `ValueError` (ambiguous truth value); a scalar or a one-element
array compares fine. -/
noncomputable def pymax (a : NpT ℝ) (b : ℝ) : Except String (NpT ℝ) :=
  match a with
  | NpT.scl x => Except.ok (NpT.scl (max x b))
  | NpT.arr [x] => Except.ok (if x < b then NpT.scl b else NpT.arr [x])
  | NpT.arr _ =>
    Except.error "ValueError: the truth value of an array with more than one element is ambiguous"

/-- `calc_fuel_availability` on numpy values, following the source expression
by expression: in the wet-forest branch `C1` is built by broadcast arithmetic
from `DI`, `C2 = 0`, then Python's builtin `max(C1 + C2, 0)` is applied
(`pymax`, NOT `np.maximum`), then `DF · max(...) / 10` and `np.clip`. -/
noncomputable def calc_fuel_availability_vec (DF DI : NpT ℝ) (wrf : ℝ)
    ( wet_forest : Bool) : Except String (NpT ℝ) := do
  let drought_factor ←
    if wet_forest then do
      let t1 ← npZip (fun k di => k * di)
        (NpT.scl (0.0046 * wrf ^ 2 - 0.0079 * wrf - 0.0175)) DI
      let C1 ← npZip (fun x k => x + k) t1
        (NpT.scl (-0.9167 * wrf ^ 2 + 1.5833 * wrf + 13.5))
      let C2 : NpT ℝ := NpT.scl 0
      let s ← npZip (fun x y => x + y) C1 C2
      let mx ← pymax s 0
      let t2 ← npZip (fun x y => x * y) DF mx
      let t3 ← npZip (fun x y => x / y) t2 (NpT.scl 10)
      pure (npClip t3 0 10)
    else pure DF
  pure (npMap (fun d => 1.008 / (1 + 104.9 * Real.exp (-0.9306 * d))) drought_factor)

/-- `calc_rate_of_spread` on numpy values: the `np.where` call evaluates the
condition `probability_phase2 < 0.5`, the two-term expression and the
three-term expression in Python evaluation order, each binary operation
broadcasting (and possibly failing) as in numpy, then selects elementwise. -/
noncomputable def calc_rate_of_spread_vec (ros_phase1 ros_phase2 ros_phase3
    probability_phase2 probability_phase3 : NpT ℝ) : Except String (NpT ℝ) := do
  let cond ← npZip (fun p c => decide (p < c)) probability_phase2 (NpT.scl 0.5)
  let m1 ← npZip (fun x y => x - y) (NpT.scl 1) probability_phase2
  let a1 ← npZip (fun x y => x * y) ros_phase1 m1
  let a2 ← npZip (fun x y => x * y) ros_phase2 probability_phase2
  let two_term ← npZip (fun x y => x + y) a1 a2
  let m1b ← npZip (fun x y => x - y) (NpT.scl 1) probability_phase2
  let b1 ← npZip (fun x y => x * y) ros_phase1 m1b
  let b2 ← npZip (fun x y => x * y) ros_phase2 probability_phase2
  let m3 ← npZip (fun x y => x - y) (NpT.scl 1) probability_phase3
  let b3 ← npZip (fun x y => x * y) b2 m3
  let b4 ← npZip (fun x y => x + y) b1 b3
  let b5 ← npZip (fun x y => x * y) ros_phase3 probability_phase3
  let three_term ← npZip (fun x y => x + y) b4 b5
  let p ← npZip Prod.mk cond two_term
  npZip (fun q y => if q.1 then q.2 else y) p three_term

end Vesta2

namespace Vesta2

/-- C1 counterexample: at `probability_phase2 = 0.5` exactly, the blender does
NOT return the two-term form: with `ros_phase1 = ros_phase2 = 0`,
`ros_phase3 = 1`, `probability_phase3 = 1` the two-term form is 0 but the code
returns 1 (it takes the three-term branch, since `0.5 < 0.5` is false). -/
theorem calc_rate_of_spread_at_half_ne_two_term :
    calc_rate_of_spread 0 0 1 0.5 1 ≠ 0 * (1 - 0.5) + 0 * 0.5 := by
  unfold calc_rate_of_spread
  norm_num

/-- C1 amended: at `probability_phase2 = 0.5` exactly, the blender returns the
THREE-term form (strict `<` routes the boundary to the else branch), for every
`ros_phase1`, `ros_phase2`, `ros_phase3` and every `probability_phase3`. -/
theorem calc_rate_of_spread_at_half_eq_three_term
    (r1 r2 r3 p3 : ℝ) :
    calc_rate_of_spread r1 r2 r3 0.5 p3 =
      r1 * (1 - 0.5) + r2 * 0.5 * (1 - p3) + r3 * p3 := by
  unfold calc_rate_of_spread
  norm_num

/-- C3 counterexample: the quartic polynomial does not meet the constant
branches exactly: at `fuel_moisture = 4.1` it is not 1 and at `fuel_moisture
= 24` it is not 0. -/
theorem moisture_poly_boundary_mismatch :
    moisture_poly 4.1 ≠ 1 ∧ moisture_poly 24 ≠ 0 := by
  unfold moisture_poly
  norm_num

/-- C3 amended: the quartic evaluates to exactly 0.998455099613 at
`fuel_moisture = 4.1` (a jump of 0.001544900387 against the constant branch 1)
and to exactly 0.02523808 at `fuel_moisture = 24` (that value, not 0, is what
`calc_moisture_function 24` returns); the piecewise function is therefore
discontinuous at both branch boundaries. -/
theorem moisture_poly_boundary_values :
    moisture_poly 4.1 = 0.998455099613 ∧ moisture_poly 24 = 0.02523808 ∧
      calc_moisture_function 4.1 = 1 ∧ calc_moisture_function 24 = 0.02523808 := by
  refine ⟨by unfold moisture_poly; norm_num, by unfold moisture_poly; norm_num, ?_, ?_⟩
  · unfold calc_moisture_function
    norm_num
  · unfold calc_moisture_function moisture_poly
    norm_num

/-- C4: `calc_probability_phase2` returns exactly 0 whenever
`fuel_load_surface < 1`, and otherwise the logistic `1/(1+exp(−g))` with
`g = −23.9315 + 1.7033·(wind_speed/wrf) + 12.0822·(moisture effect ×
availability) + 0.95236·fuel_load_surface`, for every input. -/
theorem calc_probability_phase2_spec
    (wind_speed fuel_moisture fuel_availability fuel_load_surface wrf : ℝ) :
    (fuel_load_surface < 1 →
      calc_probability_phase2 wind_speed fuel_moisture fuel_availability
        fuel_load_surface wrf = 0) ∧
    (1 ≤ fuel_load_surface →
      calc_probability_phase2 wind_speed fuel_moisture fuel_availability
        fuel_load_surface wrf =
      1 / (1 + Real.exp (-(-23.9315 + 1.7033 * (wind_speed / wrf) +
        12.0822 * (calc_moisture_function fuel_moisture * fuel_availability) +
        0.95236 * fuel_load_surface)))) := by
  unfold calc_probability_phase2
  constructor
  · intro h
    simp [h]
  · intro h
    rw [if_neg (by linarith)]

/-- C4 witness: at `fuel_load_surface = 0` the probability is 0; at
`fuel_load_surface = 2` (with wind 3, moisture 0, availability 1, wrf 3)
it is the logistic value. -/
theorem calc_probability_phase2_spec_witness :
    calc_probability_phase2 3 0 1 0 3 = 0 ∧
    calc_probability_phase2 3 0 1 2 3 =
      1 / (1 + Real.exp (-(-23.9315 + 1.7033 * (3 / 3) +
        12.0822 * (calc_moisture_function 0 * 1) + 0.95236 * 2))) :=
  ⟨(calc_probability_phase2_spec 3 0 1 0 3).1 (by norm_num),
   (calc_probability_phase2_spec 3 0 1 2 3).2 (by norm_num)⟩

/-- C6: in the dry-forest branch, `calc_fuel_availability` is monotonically
non-decreasing in the drought factor, for fixed other parameters. -/
theorem calc_fuel_availability_mono_dry
    (DF1 DF2 DI wrf : ℝ) (h : DF1 ≤ DF2) :
    calc_fuel_availability DF1 DI wrf false ≤ calc_fuel_availability DF2 DI wrf false := by
  unfold calc_fuel_availability
  simp only [Bool.false_eq_true, if_false]
  have hexp : Real.exp (-0.9306 * DF2) ≤ Real.exp (-0.9306 * DF1) :=
    Real.exp_le_exp.mpr (by nlinarith)
  have hpos : (0 : ℝ) < 1 + 104.9 * Real.exp (-0.9306 * DF2) := by positivity
  exact div_le_div_of_nonneg_left (by norm_num) hpos (by linarith)

/-- C6 witness: availability at drought factor 1 is at most that at 2. -/
theorem calc_fuel_availability_mono_dry_witness :
    calc_fuel_availability 1 100 3 false ≤ calc_fuel_availability 2 100 3 false :=
  calc_fuel_availability_mono_dry 1 2 100 3 (by norm_num)

/-- C9: whenever `probability_phase2 < 0.5`, the blended rate of spread is
independent of `ros_phase3` and `probability_phase3`: two runs differing only
in those two inputs return the same value. -/
theorem calc_rate_of_spread_indep_phase3
    (r1 r2 r3 r3' p2 p3 p3' : ℝ) (h : p2 < 0.5) :
    calc_rate_of_spread r1 r2 r3 p2 p3 = calc_rate_of_spread r1 r2 r3' p2 p3' := by
  unfold calc_rate_of_spread
  rw [if_pos h, if_pos h]

/-- C9 witness: with `probability_phase2 = 0.2`, changing `ros_phase3` from
5 to 50 and `probability_phase3` from 0 to 1 leaves the result unchanged. -/
theorem calc_rate_of_spread_indep_phase3_witness :
    calc_rate_of_spread 100 200 5 0.2 0 = calc_rate_of_spread 100 200 50 0.2 1 :=
  calc_rate_of_spread_indep_phase3 100 200 5 50 0.2 0 1 (by norm_num)

/-- C10: for every strictly negative slope the slope effect lies strictly
between 1/2 and 1: downslope slows spread by strictly less than a factor of
two and never reverses or zeroes it. -/
theorem calc_slope_effect_neg_bounds (slope : ℝ) (h : slope < 0) :
    1 / 2 < calc_slope_effect slope ∧ calc_slope_effect slope < 1 := by
  unfold calc_slope_effect
  rw [if_neg (by linarith), if_neg (by linarith)]
  have hy : (0 : ℝ) < -slope / 10 := by linarith
  have ht : (1 : ℝ) < (2 : ℝ) ^ (-slope / 10) :=
    Real.one_lt_rpow_iff_of_pos (by norm_num) |>.mpr (Or.inl ⟨by norm_num, hy⟩)
  have hd : (0 : ℝ) < 2 * (2 : ℝ) ^ (-slope / 10) - 1 := by linarith
  constructor
  · rw [div_lt_div_iff₀ (by norm_num) hd]
    linarith
  · rw [div_lt_one hd]
    linarith

/-- C10 witness: at slope −10 degrees the slope effect is strictly between
1/2 and 1. -/
theorem calc_slope_effect_neg_bounds_witness :
    1 / 2 < calc_slope_effect (-10) ∧ calc_slope_effect (-10) < 1 :=
  calc_slope_effect_neg_bounds (-10) (by norm_num)

/-- The quartic segment is nonnegative on the closed interval [4.1, 24]. -/
theorem moisture_poly_nonneg (m : ℝ) (h1 : 4.1 ≤ m) (h2 : m ≤ 24) :
    0 ≤ moisture_poly m := by
  unfold moisture_poly
  have ha : (0 : ℝ) ≤ m - 4.1 := by linarith
  have hb : (0 : ℝ) ≤ 24 - m := by linarith
  nlinarith [mul_nonneg (mul_nonneg ha hb) (sq_nonneg (m - 16.47)),
    mul_nonneg ha (sq_nonneg (m - 16.47)), mul_nonneg hb (sq_nonneg (m - 16.47)),
    sq_nonneg (m - 16.47), mul_nonneg ha hb, ha, hb]

/-- The quartic segment is at most one on the closed interval [4.1, 24]. -/
theorem moisture_poly_le_one (m : ℝ) (h1 : 4.1 ≤ m) (h2 : m ≤ 24) :
    moisture_poly m ≤ 1 := by
  unfold moisture_poly
  have ha : (0 : ℝ) ≤ m - 4.1 := by linarith
  have hb : (0 : ℝ) ≤ 24 - m := by linarith
  nlinarith [mul_nonneg ha (sq_nonneg (m - 24.18)),
    mul_nonneg (mul_nonneg ha ha) (sq_nonneg (m - 24.18)),
    sq_nonneg (m - 24.18), sq_nonneg (m - 4.1), ha, hb,
    mul_nonneg ha hb]

/-- C5: for every real fuel moisture, `calc_moisture_function` returns a value
in [0, 1]; it is 1 on the branch `fuel_moisture ≤ 4.1`, 0 on the branch
`fuel_moisture > 24`, and on (4.1, 24] it equals the quartic polynomial,
which itself stays within [0, 1] there. -/
theorem calc_moisture_function_range (m : ℝ) :
    (0 ≤ calc_moisture_function m ∧ calc_moisture_function m ≤ 1) ∧
    (m ≤ 4.1 → calc_moisture_function m = 1) ∧
    (24 < m → calc_moisture_function m = 0) ∧
    (4.1 < m → m ≤ 24 → calc_moisture_function m = moisture_poly m ∧
      0 ≤ moisture_poly m ∧ moisture_poly m ≤ 1) := by
  unfold calc_moisture_function
  by_cases hle : m ≤ 4.1
  · rw [if_pos hle]
    refine ⟨⟨by norm_num, by norm_num⟩, fun _ => rfl, fun hgt => absurd hgt (by push_neg; linarith), fun hgt _ => absurd hgt (by linarith)⟩
  · rw [if_neg hle]
    push_neg at hle
    by_cases hgt : m > 24
    · rw [if_pos hgt]
      refine ⟨⟨le_refl 0, by norm_num⟩, fun h => absurd h (by push_neg; linarith),
        fun _ => rfl, fun _ h => absurd h (by push_neg; linarith)⟩
    · rw [if_neg hgt]
      push_neg at hgt
      exact ⟨⟨moisture_poly_nonneg m hle.le hgt, moisture_poly_le_one m hle.le hgt⟩,
        fun h => absurd h (by push_neg; linarith), fun h => absurd h (by push_neg; linarith),
        fun _ _ => ⟨rfl, moisture_poly_nonneg m hle.le hgt, moisture_poly_le_one m hle.le hgt⟩⟩

/-- C5 witness: at fuel moisture 10 (inside the quartic branch) the value is in
[0, 1] and equals the polynomial; at 3 the value is 1; at 30 it is 0. -/
theorem calc_moisture_function_range_witness :
    (0 ≤ calc_moisture_function 10 ∧ calc_moisture_function 10 ≤ 1) ∧
    calc_moisture_function 10 = moisture_poly 10 ∧
    calc_moisture_function 3 = 1 ∧ calc_moisture_function 30 = 0 :=
  ⟨(calc_moisture_function_range 10).1,
   ((calc_moisture_function_range 10).2.2.2 (by norm_num) (by norm_num)).1,
   (calc_moisture_function_range 3).2.1 (by norm_num),
   (calc_moisture_function_range 30).2.2.1 (by norm_num)⟩

/-- numpy power of a negative base with a non-integer exponent is NaN. -/
theorem npPow_eq_none (x y : ℝ) (hx : x < 0) (hy : ∀ n : ℤ, (n : ℝ) ≠ y) :
    npPow x y = none := by
  unfold npPow
  rw [if_neg (not_le.mpr hx), if_neg]
  rintro ⟨n, hn⟩
  exact hy n hn

/-- No integer casts to the real number 0.495. -/
theorem not_int_cast_0495 (n : ℤ) : (n : ℝ) ≠ 0.495 := by
  intro hn
  have h0 : (0 : ℤ) < n := by
    have : (0 : ℝ) < (n : ℝ) := by rw [hn]; norm_num
    exact_mod_cast this
  have h1 : n < 1 := by
    have : (n : ℝ) < 1 := by rw [hn]; norm_num
    exact_mod_cast this
  omega

/-- C8: `calc_height_understorey 0 0 = −0.1`, a negative value, and for every
negative `height_understorey` the Phase-2 rate raises a negative base to the
non-integer power 0.495, so `calculate_ros_phase2` is undefined (numpy NaN,
modelled `none`): nothing at the engine interface guards against this. -/
theorem understorey_negative_unguarded :
    calc_height_understorey 0 0 = -0.1 ∧
    ∀ wind_speed fuel_moisture fuel_availability fuel_load_surface wrf slope
      height_understorey : ℝ, height_understorey < 0 →
      calculate_ros_phase2 wind_speed fuel_moisture fuel_availability
        fuel_load_surface wrf height_understorey slope = none := by
  constructor
  · unfold calc_height_understorey
    norm_num
  · intro ws fm fa fls wrf slope hu hhu
    unfold calculate_ros_phase2
    have h3 : npPow hu 0.495 = none := npPow_eq_none hu 0.495 hhu not_int_cast_0495
    cases h1 : npPow (ws / wrf) 0.8257 with
    | none => simp [h1]
    | some a =>
      cases h2 : npPow (fls / 10) 0.4672 with
      | none => simp [h1, h2]
      | some b => simp [h1, h2, h3]

/-- C2 (code bug, evaluated at the failing input): with `wet_forest = true`
and sequence-valued `DF = [1, 2]`, `DI = [100, 150]` (`wrf = 3`),
`calc_fuel_availability` does not evaluate elementwise: the builtin
`max(C1 + C2, 0)` truth-tests a two-element array and raises `ValueError`
instead of broadcasting. -/
theorem calc_fuel_availability_vec_wet_seq_error :
    calc_fuel_availability_vec (NpT.arr [1, 2]) (NpT.arr [100, 150]) 3 true =
      Except.error
        "ValueError: the truth value of an array with more than one element is ambiguous" := by
  rfl

/-- C7: calling the rate-of-spread blender with input sequences of
incompatible (mismatched, neither of length one) lengths fails with a
`DimensionMismatch` error: the whole call returns the error and no partial
result is produced. -/
theorem calc_rate_of_spread_vec_mismatch
    (r1s p2s : List ℝ) (r2 r3 p3 : NpT ℝ)
    (hne : r1s.length ≠ p2s.length) (h1 : r1s.length ≠ 1) (h2 : p2s.length ≠ 1) :
    calc_rate_of_spread_vec (NpT.arr r1s) r2 r3 (NpT.arr p2s) p3 =
      Except.error "DimensionMismatch" := by
  unfold calc_rate_of_spread_vec
  simp only [bind, Except.bind, npZip, List.length_map]
  rw [if_neg hne, dif_neg h1, dif_neg h2]

/-- C7 witness: rates of length 2 against probabilities of length 3 fail with
the dimension-mismatch error. -/
theorem calc_rate_of_spread_vec_mismatch_witness :
    calc_rate_of_spread_vec (NpT.arr [1, 2]) (NpT.scl 0) (NpT.scl 0)
      (NpT.arr [0, 0, 0]) (NpT.scl 0) = Except.error "DimensionMismatch" :=
  calc_rate_of_spread_vec_mismatch [1, 2] [0, 0, 0] (NpT.scl 0) (NpT.scl 0) (NpT.scl 0)
    (by simp) (by simp) (by simp)

/-- C8 witness: the understorey height from zero hazard score and zero
elevated height is negative, and feeding it (−0.1) to the Phase-2 rate at
wind 3, moisture 10, availability 1, load 10, wrf 3, slope 0 gives an
undefined (NaN) result. -/
theorem understorey_negative_unguarded_witness :
    calc_height_understorey 0 0 = -0.1 ∧
    calculate_ros_phase2 3 10 1 10 3 (-0.1) 0 = none :=
  ⟨understorey_negative_unguarded.1,
   understorey_negative_unguarded.2 3 10 1 10 3 0 (-0.1) (by norm_num)⟩

end Vesta2
